import Mathlib

/-!
Verification of the GCS vehicle-bridge / mission-orchestrator against its
specification.  The definitions below are shallow embeddings of the
JavaScript sources:

* `GCS.Sprayer`   — `src/services/sprayerService.js` (spray orchestrator)
* `GCS.Detect`    — `src/services/pixhawkServicePyMAVLink.js`
                    (`processStatustextForDetections`, `saveDetection`)
* `GCS.Link`      — `src/mavlink_handler.js` connection state (port events,
                    inbound heartbeats)
* `GCS.Telemetry` — `src/mavlink_handler.js` telemetry aggregation
                    (`handleHeartbeat`, `handleGlobalPosition`,
                    `handleGpsRaw`, `handleSysStatus`,
                    `handleBatteryStatus`, `parseFlightMode`)
* `GCS.Command`   — `src/mavlink_handler.js` `sendCommand` and
                    `src/services/pixhawkServicePyMAVLink.js` `sendCommand`
* `GCS.Mission`   — mission upload expansion (the Python service that holds
                    `upload_mission_waypoints` is not part of `src/`; it is
                    modelled from the spec)

Wall-clock instants (`Date.now()`, `toISOString()`) are passed to the
operations as explicit `Nat` arguments.  JavaScript numbers that can go
negative are modelled as `Int`, unit-converted telemetry values as `Rat`.
-/

namespace GCS.Sprayer

/-- Sprayer configuration, `this.config` in the `SprayerService` constructor. -/
structure SprayConfig where
  tank_capacity_ml : Int
  spray_volume_per_target_ml : Int
  refill_threshold_ml : Int
  spray_duration_sec : Nat
  loiter_time_sec : Nat
  spray_altitude_m : Int
  auto_resume_after_refill : Bool
  require_manual_confirmation : Bool
deriving Repr, DecidableEq

/-- The constructor defaults: 1000 ml tank, 50 ml per target, refill at 100 ml. -/
def defaultConfig : SprayConfig :=
  { tank_capacity_ml := 1000
    spray_volume_per_target_ml := 50
    refill_threshold_ml := 100
    spray_duration_sec := 3
    loiter_time_sec := 5
    spray_altitude_m := 5
    auto_resume_after_refill := true
    require_manual_confirmation := true }

/-- Target states written by the source (`'queued'`, `'completed'`, `'failed'`). -/
inductive TargetStatus where
  | queued
  | completed
  | failed
deriving Repr, DecidableEq

/-- A detection handed to `queueTargets`.  `altitude` and `priority` are
optional in the incoming objects (`det.altitude || ...`, `det.priority || 1`). -/
structure Detection where
  detection_id : Nat
  latitude : Int
  longitude : Int
  altitude : Option Int
  confidence : Int
  priority : Option Int
deriving Repr, DecidableEq

/-- JavaScript `v || d` on an optional number: `0` is falsy, so it also
falls back to the default. -/
def jsOrInt (v : Option Int) (d : Int) : Int :=
  match v with
  | some a => if a = 0 then d else a
  | none => d

/-- One spray target, as built in `queueTargets`.  The source id string
`spray_<droneId>_<Date.now()>_<index>` is modelled by the pair
`(Date.now(), index)`; the drone id is fixed because all maps in the
service are keyed per drone and the entries evolve independently. -/
structure SprayTarget where
  target_id : Nat × Nat
  detection_id : Nat
  latitude : Int
  longitude : Int
  altitude : Int
  spray_volume_ml : Int
  status : TargetStatus
  queued_at : Nat
  sprayed_at : Option Nat
  confidence : Int
  priority : Int
deriving Repr, DecidableEq

/-- Tank record stored in `this.tankStatus`. -/
structure Tank where
  current_volume_ml : Int
  capacity_ml : Int
  refills_count : Nat
  last_refill_time : Nat
  total_sprayed_ml : Int
deriving Repr, DecidableEq

/-- Spray-mission states written by the source. -/
inductive MissionStatus where
  | active
  | refilling
  | completed
  | stopped
deriving Repr, DecidableEq

/-- Mission record stored in `this.activeMissions` (`spray_mission_<id>_<t>`
is modelled by the `Nat` timestamp `mission_id`). -/
structure SprayMission where
  mission_id : Nat
  status : MissionStatus
  started_at : Nat
  ended_at : Option Nat
  current_target_index : Nat
  total_targets : Nat
  targets_completed : Nat
  targets_failed : Nat
  paused_for_refill : Bool
  refills_during_mission : Nat
  home_location : Option (Int × Int)
  last_sprayed_index : Int
deriving Repr, DecidableEq

/-- The per-drone slice of the service state: `activeMissions.get(d)`,
`sprayQueues.get(d)` (empty before initialization) and
`tankStatus.get(d)` (`none` before initialization). -/
structure SprayState where
  mission : Option SprayMission
  queue : List SprayTarget
  tank : Option Tank
deriving Repr, DecidableEq

/-- Service state before any call touched this drone. -/
def initState : SprayState :=
  { mission := none, queue := [], tank := none }

/-- Events the execution loop surfaces (`next_target`, `refill_required`,
mission completion). -/
inductive Emit where
  | next_target (t : SprayTarget)
  | refill_required
  | mission_complete
deriving Repr, DecidableEq

/-- `initializeSprayer`: creates the tank (full) and an empty queue only
when the drone has no tank entry yet. -/
def initializeSprayer (cfg : SprayConfig) (now : Nat) (st : SprayState) : SprayState :=
  match st.tank with
  | some _ => st
  | none =>
    { st with
      tank := some
        { current_volume_ml := cfg.tank_capacity_ml
          capacity_ml := cfg.tank_capacity_ml
          refills_count := 0
          last_refill_time := now
          total_sprayed_ml := 0 }
      queue := [] }

/-- `queueTargets`: initialize, convert each detection to a target and
append to the queue. -/
def queueTargets (cfg : SprayConfig) (now : Nat) (dets : List Detection)
    (st : SprayState) : SprayState :=
  let st := initializeSprayer cfg now st
  let targets := dets.enum.map fun p =>
    { target_id := (now, p.1)
      detection_id := p.2.detection_id
      latitude := p.2.latitude
      longitude := p.2.longitude
      altitude := jsOrInt p.2.altitude cfg.spray_altitude_m
      spray_volume_ml := cfg.spray_volume_per_target_ml
      status := TargetStatus.queued
      queued_at := now
      sprayed_at := none
      confidence := p.2.confidence
      priority := jsOrInt p.2.priority 1 : SprayTarget }
  { st with queue := st.queue ++ targets }

/-- `completeMission`: the mission record is marked completed and then
deleted from `activeMissions`, and the queue is cleared; the net state
change is `mission := none`, `queue := []`. -/
def completeMission (st : SprayState) : SprayState :=
  { st with mission := none, queue := [] }

/-- `initiateRefillSequence`: mission goes to `refilling`, is flagged
paused, and the per-mission refill counter is bumped. -/
def initiateRefillSequence (st : SprayState) : SprayState :=
  match st.mission with
  | none => st
  | some m =>
    { st with
      mission := some
        { m with
          status := MissionStatus.refilling
          paused_for_refill := true
          refills_during_mission := m.refills_during_mission + 1 } }

/-- `executeSprayMission`: returns the new state and what was emitted.
No target at the current index ends the mission; a tank below
`spray_volume_per_target_ml + 50` triggers the refill sequence; otherwise
`next_target` is emitted (the operator side flies the vehicle). -/
def executeSprayMission (cfg : SprayConfig) (st : SprayState) :
    SprayState × Option Emit :=
  match st.mission with
  | none => (st, none)
  | some m =>
    if m.status ≠ MissionStatus.active then (st, none)
    else
      match st.queue[m.current_target_index]? with
      | none => (completeMission st, some Emit.mission_complete)
      | some t =>
        match st.tank with
        | none => (st, none)
        | some tank =>
          if tank.current_volume_ml < cfg.spray_volume_per_target_ml + 50 then
            (initiateRefillSequence st, some Emit.refill_required)
          else (st, some (Emit.next_target t))

/-- `startSprayMission`: initialize, refuse on empty queue or a tank below
`spray_volume_per_target_ml + 50`, otherwise create the active mission and
run one `executeSprayMission` step (the source calls it synchronously).
The `Bool` is the `success` field of the returned object. -/
def startSprayMission (cfg : SprayConfig) (now : Nat) (st : SprayState) :
    SprayState × Option Emit × Bool :=
  let st := initializeSprayer cfg now st
  if st.queue.isEmpty then (st, none, false)
  else
    match st.tank with
    | none => (st, none, false)
    | some tank =>
      if tank.current_volume_ml < cfg.spray_volume_per_target_ml + 50 then
        (st, none, false)
      else
        let m : SprayMission :=
          { mission_id := now
            status := MissionStatus.active
            started_at := now
            ended_at := none
            current_target_index := 0
            total_targets := st.queue.length
            targets_completed := 0
            targets_failed := 0
            paused_for_refill := false
            refills_during_mission := 0
            home_location := none
            last_sprayed_index := -1 }
        let p := executeSprayMission cfg { st with mission := some m }
        (p.1, p.2, true)

/-- `onSprayComplete`: only acts when a mission exists and the current
target's id matches; success marks the target completed, drains the tank
by the configured volume and advances; failure marks it failed and
advances.  The `setTimeout`-scheduled `executeSprayMission` is a separate
operation of the sequence. -/
def onSprayComplete (cfg : SprayConfig) (now : Nat) (targetId : Nat × Nat)
    (success : Bool) (st : SprayState) : SprayState :=
  match st.mission with
  | none => st
  | some m =>
    match st.queue[m.current_target_index]? with
    | none => st
    | some t =>
      if t.target_id = targetId then
        if success then
          match st.tank with
          | none => st
          | some tank =>
            { st with
              queue := st.queue.set m.current_target_index
                { t with status := TargetStatus.completed, sprayed_at := some now }
              tank := some
                { tank with
                  current_volume_ml :=
                    tank.current_volume_ml - cfg.spray_volume_per_target_ml
                  total_sprayed_ml :=
                    tank.total_sprayed_ml + cfg.spray_volume_per_target_ml }
              mission := some
                { m with
                  targets_completed := m.targets_completed + 1
                  last_sprayed_index := (m.current_target_index : Int)
                  current_target_index := m.current_target_index + 1 } }
        else
          { st with
            queue := st.queue.set m.current_target_index
              { t with status := TargetStatus.failed }
            mission := some
              { m with
                targets_failed := m.targets_failed + 1
                current_target_index := m.current_target_index + 1 } }
      else st

/-- Result of `confirmRefill`: new state, the `success` flag, and whether
the source scheduled an `executeSprayMission` resume
(`config.auto_resume_after_refill`). -/
structure ConfirmResult where
  state : SprayState
  success : Bool
  resumeScheduled : Bool
deriving Repr, DecidableEq

/-- `confirmRefill`: with no mission, fails; otherwise the tank is set to
capacity, the refill counter bumped, the mission reactivated, and a resume
step is scheduled when `auto_resume_after_refill` is set. -/
def confirmRefill (cfg : SprayConfig) (now : Nat) (st : SprayState) :
    ConfirmResult :=
  match st.mission with
  | none => { state := st, success := false, resumeScheduled := false }
  | some m =>
    match st.tank with
    | none => { state := st, success := false, resumeScheduled := false }
    | some tank =>
      { state :=
          { st with
            tank := some
              { tank with
                current_volume_ml := tank.capacity_ml
                refills_count := tank.refills_count + 1
                last_refill_time := now }
            mission := some
              { m with
                status := MissionStatus.active
                paused_for_refill := false } }
        success := true
        resumeScheduled := cfg.auto_resume_after_refill }

/-- `stopMission`: with no mission, fails; otherwise the mission record is
marked stopped and deleted from `activeMissions`.  The spray queue is not
touched. -/
def stopMission (now : Nat) (st : SprayState) : SprayState × Bool :=
  match st.mission with
  | none => (st, false)
  | some _ => ({ st with mission := none }, true)

/-- `clearQueue`: resets the drone's queue to empty. -/
def clearQueue (st : SprayState) : SprayState :=
  { st with queue := [] }

/-- The spray-orchestrator operations named by the specification claims. -/
inductive SprayOp where
  | queueTargets (now : Nat) (dets : List Detection)
  | start (now : Nat)
  | execute
  | completeTarget (now : Nat) (targetId : Nat × Nat) (success : Bool)
  | confirmRefill (now : Nat)
  | stop (now : Nat)
deriving Repr, DecidableEq

/-- State transition of one operation (emitted events and result objects
are discarded). -/
def stepOp (cfg : SprayConfig) (st : SprayState) : SprayOp → SprayState
  | SprayOp.queueTargets now dets => queueTargets cfg now dets st
  | SprayOp.start now => (startSprayMission cfg now st).1
  | SprayOp.execute => (executeSprayMission cfg st).1
  | SprayOp.completeTarget now tid success => onSprayComplete cfg now tid success st
  | SprayOp.confirmRefill now => (confirmRefill cfg now st).state
  | SprayOp.stop now => (stopMission now st).1

/-- Run a sequence of operations from a state. -/
def runOps (cfg : SprayConfig) (st : SprayState) (ops : List SprayOp) : SprayState :=
  ops.foldl (stepOp cfg) st

/-- Bounds for one tank record: `0 ≤ current ≤ capacity` together with a
nonnegative capacity (so refills stay in range). -/
def tankOptB : Option Tank → Bool
  | none => true
  | some t =>
    decide (0 ≤ t.current_volume_ml) && decide (t.current_volume_ml ≤ t.capacity_ml)
      && decide (0 ≤ t.capacity_ml)

/-- Tank invariant claimed by the spec: `0 ≤ current ≤ capacity`
(vacuously true before the sprayer is initialized). -/
def tankWithinBounds (st : SprayState) : Bool :=
  tankOptB st.tank

/-- Does `onSprayComplete` with this target id actually act on the state
(mission present and the current target's id matches)? -/
def dispensesOn (st : SprayState) (targetId : Nat × Nat) : Bool :=
  match st.mission with
  | none => false
  | some m =>
    match st.queue[m.current_target_index]? with
    | none => false
    | some t => t.target_id = targetId

/-- Guard for a single operation: a successful completion that would
dispense must find the tank holding at least the
`spray_volume_per_target_ml + 50` that `executeSprayMission` checks
before emitting `next_target`. -/
def safeHead (cfg : SprayConfig) (st : SprayState) : SprayOp → Bool
  | SprayOp.completeTarget _ tid true =>
    !dispensesOn st tid ||
      (match st.tank with
       | none => true
       | some tank =>
         decide (cfg.spray_volume_per_target_ml + 50 ≤ tank.current_volume_ml))
  | _ => true

/-- A sequence is driver-guarded when every operation satisfies
`safeHead` in the state it runs in. -/
def safeOps (cfg : SprayConfig) : SprayState → List SprayOp → Bool
  | _, [] => true
  | st, op :: rest => safeHead cfg st op && safeOps cfg (stepOp cfg st op) rest

/-- Formalization of claim C6 as stated: the tank invariant holds after
every operation sequence. -/
def sprayTankClaim : Prop :=
  ∀ ops : List SprayOp, tankWithinBounds (runOps defaultConfig initState ops) = true

/-- Formalization of claim C5 as stated: stopping a vehicle with an active
mission leaves no mission and an empty queue. -/
def stopClearsQueueClaim : Prop :=
  ∀ (now : Nat) (st : SprayState), st.mission.isSome = true →
    (stopMission now st).1.mission = none ∧ (stopMission now st).1.queue = []

/-- A 21-detection batch used to exhibit tank over-draining. -/
def drainDetections : List Detection :=
  (List.range 21).map fun i =>
    { detection_id := i, latitude := 0, longitude := 0, altitude := none
      confidence := 0, priority := none }

/-- Queue 21 targets, start (tank 1000 ml) and acknowledge all 21 targets
in a row without the execution loop running in between: each success
drains 50 ml, so the tank ends at −50 ml. -/
def drainOps : List SprayOp :=
  SprayOp.queueTargets 0 drainDetections :: SprayOp.start 1 ::
    (List.range 21).map fun i => SprayOp.completeTarget (2 + i) (0, i) true

end GCS.Sprayer

namespace GCS.Detect

/-- One incoming well-formed `DET|id|lat|lon|conf|area` status record, as
seen by `processStatustextForDetections`.  Detection ids are abstracted to
a type with decidable equality (the source uses opaque strings).
`missionActive` records whether `missionService.activeMissions` holds the
drone when the record is processed, which is the only input
`saveDetection` branches on. -/
structure DetRecord (α : Type) where
  id : α
  missionActive : Bool
deriving Repr, DecidableEq

/-- `missionService.saveDetection`: returns `null` when the drone has no
active survey mission, otherwise the (enriched) detection data. -/
def saveDetection {α : Type} (missionActive : Bool) (d : α) : Option α :=
  if missionActive then some d else none

/-- The module-level `processedDetections` set.  A JavaScript `Set`
iterates in insertion order, so it is modelled as a duplicate-free list,
oldest id first. -/
abbrev SeenSet (α : Type) := List α

/-- Processing of one `DET` record in `processStatustextForDetections`:
ids already processed are skipped; otherwise the detection is saved
(emitting `crop_detection` exactly when `saveDetection` returns data), the
id is recorded, and when the set exceeds 1000 entries the 100 oldest ids
are evicted (`Array.from(...).slice(0, 100)` then `delete`).  Returns the
new set and whether `crop_detection` was emitted. -/
def processRecord {α : Type} [DecidableEq α] (seen : SeenSet α)
    (r : DetRecord α) : SeenSet α × Bool :=
  if r.id ∈ seen then (seen, false)
  else
    (if 1000 < (seen ++ [r.id]).length then (seen ++ [r.id]).drop 100
     else seen ++ [r.id],
      (saveDetection r.missionActive r.id).isSome)

/-- Process a batch of records; returns the final set and the ids for
which a `crop_detection` event was emitted, in order. -/
def processStatustextForDetections {α : Type} [DecidableEq α] :
    SeenSet α → List (DetRecord α) → SeenSet α × List α
  | seen, [] => (seen, [])
  | seen, r :: rs =>
    let p := processRecord seen r
    let q := processStatustextForDetections p.1 rs
    (q.1, (if p.2 then [r.id] else []) ++ q.2)

/-- Formalization of claim C4 as stated: over every record sequence, no
detection id is emitted more than once. -/
def dedupClaim : Prop :=
  ∀ (rs : List (DetRecord Nat)) (id : Nat),
    (processStatustextForDetections [] rs).2.count id ≤ 1

/-- A sequence that overflows the seen-set: id 0 is emitted, 1000 further
distinct ids push the set past its 1000-entry bound (evicting the 100
oldest ids, id 0 among them), and the re-arrival of id 0 is emitted
again. -/
def evictionRecords : List (DetRecord Nat) :=
  ⟨0, true⟩ :: ((List.range 1000).map fun i => ⟨1 + i, false⟩) ++ [⟨0, true⟩]

end GCS.Detect

namespace GCS.Link

/-- Events that drive the `PixhawkConnection` connection flag: serial-port
`open` / `close` / `error` events, an explicit `disconnect()` call, and a
decoded inbound `HEARTBEAT` (`handleHeartbeat`). -/
inductive LinkEvent where
  | portOpen
  | portClose
  | portError
  | disconnectCall
  | heartbeat (baseMode customMode systemStatus : Nat)
deriving Repr, DecidableEq

/-- An event with the wall-clock second at which it is observed. -/
structure TimedEvent where
  time : Nat
  ev : LinkEvent
deriving Repr, DecidableEq

/-- How one event updates `this.connected`: `open` sets it, `close`,
`error` and `disconnect()` clear it, and `handleHeartbeat` only updates
telemetry. -/
def stepConnected (c : Bool) : LinkEvent → Bool
  | LinkEvent.portOpen => true
  | LinkEvent.portClose => false
  | LinkEvent.portError => false
  | LinkEvent.disconnectCall => false
  | LinkEvent.heartbeat _ _ _ => c

/-- `this.connected` after a trace (initially `false`). -/
def connectedAfter (tr : List TimedEvent) : Bool :=
  tr.foldl (fun c e => stepConnected c e.ev) false

/-- Events that change the transport's open/closed status. -/
def isPortEvent : LinkEvent → Bool
  | LinkEvent.portOpen => true
  | LinkEvent.portClose => true
  | LinkEvent.portError => true
  | LinkEvent.disconnectCall => true
  | LinkEvent.heartbeat _ _ _ => false

/-- Whether the transport is open after the trace: the most recent port
event was `open` (initially closed). -/
def transportOpen (tr : List TimedEvent) : Bool :=
  match (tr.filter fun e => isPortEvent e.ev).getLast? with
  | some e => decide (e.ev = LinkEvent.portOpen)
  | none => false

/-- An inbound heartbeat was received within the last `w` seconds. -/
def heartbeatWithin (w : Nat) (tr : List TimedEvent) (now : Nat) : Bool :=
  tr.any fun e =>
    (match e.ev with
     | LinkEvent.heartbeat _ _ _ => true
     | _ => false) && decide (now ≤ e.time + w)

/-- Formalization of claim C3 as stated: at every instant not earlier than
all observed events, the link is connected iff the transport is open and a
heartbeat arrived within the 3 s window. -/
def heartbeatTimeoutClaim : Prop :=
  ∀ (tr : List TimedEvent) (now : Nat), (∀ e ∈ tr, e.time ≤ now) →
    connectedAfter tr = (transportOpen tr && heartbeatWithin 3 tr now)

end GCS.Link

namespace GCS.Telemetry

/-- `telemetryData.gps`. -/
structure GpsData where
  lat : Rat
  lon : Rat
  alt : Rat
  satellites_visible : Nat
  fix_type : Nat
  hdop : Rat
deriving Repr, DecidableEq

/-- `telemetryData.battery`.  `remaining` is stored raw (the wire field is
a signed percentage). -/
structure BatteryData where
  voltage : Rat
  current : Rat
  remaining : Int
deriving Repr, DecidableEq

/-- The per-vehicle snapshot `this.telemetryData`.  The `attitude` record
and the `groundspeed` field are omitted: their conversions go through
`180/π` and `Math.sqrt`, they are written by no handler modelled here, and
no claimed field reads them. -/
structure TelemetryData where
  gps : GpsData
  altitude : Rat
  heading : Rat
  battery : BatteryData
  flight_mode : String
  armed : Bool
  system_status : String
deriving Repr, DecidableEq

/-- The constructor's initial snapshot. -/
def initialTelemetry : TelemetryData :=
  { gps := { lat := 0, lon := 0, alt := 0, satellites_visible := 0, fix_type := 0, hdop := 0 }
    altitude := 0
    heading := 0
    battery := { voltage := 0, current := 0, remaining := 100 }
    flight_mode := "UNKNOWN"
    armed := false
    system_status := "UNKNOWN" }

/-- The ArduCopter custom-mode table in `parseFlightMode`. -/
def flightModeTable : List (Nat × String) :=
  [(0, "STABILIZE"), (1, "ACRO"), (2, "ALT_HOLD"), (3, "AUTO"), (4, "GUIDED"),
   (5, "LOITER"), (6, "RTL"), (7, "CIRCLE"), (9, "LAND"), (16, "POSHOLD"),
   (17, "BRAKE"), (18, "THROW"), (19, "AVOID_ADSB"), (20, "GUIDED_NOGPS"),
   (21, "SMART_RTL"), (22, "FLOWHOLD"), (23, "FOLLOW"), (24, "ZIGZAG"),
   (25, "SYSTEMID"), (26, "AUTOROTATE")]

/-- `parseFlightMode`: table lookup with fallback `MODE_<n>`. -/
def parseFlightMode (customMode : Nat) : String :=
  match (flightModeTable.lookup customMode) with
  | some s => s
  | none => "MODE_" ++ toString customMode

/-- `getSystemStatus`: MAV_STATE table with fallback `UNKNOWN`. -/
def getSystemStatus (status : Nat) : String :=
  match (([(0, "UNINIT"), (1, "BOOT"), (2, "CALIBRATING"), (3, "STANDBY"),
           (4, "ACTIVE"), (5, "CRITICAL"), (6, "EMERGENCY"), (7, "POWEROFF"),
           (8, "FLIGHT_TERMINATION")] : List (Nat × String)).lookup status) with
  | some s => s
  | none => "UNKNOWN"

/-- Decoded messages whose handlers write the claimed snapshot fields.
Raw wire integers keep their wire scaling. -/
inductive MavMessage where
  | heartbeat (customMode baseMode systemStatus : Nat)
  | globalPositionInt (lat lon alt relativeAlt : Int) (hdg : Nat) (vx vy : Int)
  | gpsRawInt (lat lon alt : Int) (eph : Nat) (satellitesVisible fixType : Nat)
  | sysStatus (voltageBattery : Nat) (currentBattery : Int) (batteryRemaining : Int)
  | batteryStatus (voltages : List Nat) (currentBattery : Int) (batteryRemaining : Int)
deriving Repr, DecidableEq

/-- `handleHeartbeat`: armed flag from `baseMode & 128`, system status and
flight mode decoded. -/
def handleHeartbeat (td : TelemetryData) (customMode baseMode systemStatus : Nat) :
    TelemetryData :=
  { td with
    armed := baseMode.land 128 ≠ 0
    system_status := getSystemStatus systemStatus
    flight_mode := parseFlightMode customMode }

/-- `handleGlobalPosition`: 1e7-scaled degrees to degrees, mm to m,
centidegrees to degrees.  (The `groundspeed = sqrt(vx²+vy²)` write is
omitted with the field, see `TelemetryData`.) -/
def handleGlobalPosition (td : TelemetryData)
    (lat lon alt relativeAlt : Int) (hdg : Nat) (_vx _vy : Int) : TelemetryData :=
  { td with
    gps :=
      { td.gps with
        lat := (lat : Rat) / 10000000
        lon := (lon : Rat) / 10000000
        alt := (alt : Rat) / 1000 }
    altitude := (relativeAlt : Rat) / 1000
    heading := (hdg : Rat) / 100 }

/-- `handleGpsRaw`: satellite/fix/hdop always; position only as a fallback
while `gps.lat` is still `0`. -/
def handleGpsRaw (td : TelemetryData) (lat lon alt : Int) (eph : Nat)
    (satellitesVisible fixType : Nat) : TelemetryData :=
  let td :=
    { td with
      gps :=
        { td.gps with
          satellites_visible := satellitesVisible
          fix_type := fixType
          hdop := (eph : Rat) / 100 } }
  if td.gps.lat = 0 then
    { td with
      gps :=
        { td.gps with
          lat := (lat : Rat) / 10000000
          lon := (lon : Rat) / 10000000
          alt := (alt : Rat) / 1000 } }
  else td

/-- `handleSysStatus`: mV to V, cA to A, remaining stored raw. -/
def handleSysStatus (td : TelemetryData) (voltageBattery : Nat)
    (currentBattery batteryRemaining : Int) : TelemetryData :=
  { td with
    battery :=
      { voltage := (voltageBattery : Rat) / 1000
        current := (currentBattery : Rat) / 100
        remaining := batteryRemaining } }

/-- `handleBatteryStatus`: cell voltages are summed and adopted only when
positive; current and remaining as in `handleSysStatus`. -/
def handleBatteryStatus (td : TelemetryData) (voltages : List Nat)
    (currentBattery batteryRemaining : Int) : TelemetryData :=
  let totalVoltage : Rat := ((voltages.sum : Nat) : Rat) / 1000
  let voltage :=
    if voltages.length > 0 ∧ totalVoltage > 0 then totalVoltage
    else td.battery.voltage
  { td with
    battery :=
      { voltage := voltage
        current := (currentBattery : Rat) / 100
        remaining := batteryRemaining } }

/-- Dispatch of `handleMavLinkMessage` restricted to the modelled ids. -/
def applyMessage (td : TelemetryData) : MavMessage → TelemetryData
  | MavMessage.heartbeat customMode baseMode systemStatus =>
    handleHeartbeat td customMode baseMode systemStatus
  | MavMessage.globalPositionInt lat lon alt relativeAlt hdg vx vy =>
    handleGlobalPosition td lat lon alt relativeAlt hdg vx vy
  | MavMessage.gpsRawInt lat lon alt eph sats fix =>
    handleGpsRaw td lat lon alt eph sats fix
  | MavMessage.sysStatus v c r => handleSysStatus td v c r
  | MavMessage.batteryStatus vs c r => handleBatteryStatus td vs c r

/-- Snapshot after a decoded message sequence. -/
def runMessages (msgs : List MavMessage) : TelemetryData :=
  msgs.foldl applyMessage initialTelemetry

/-- The physical ranges claimed for the snapshot. -/
def snapshotInRanges (td : TelemetryData) : Prop :=
  (-90 ≤ td.gps.lat ∧ td.gps.lat ≤ 90) ∧
    (-180 ≤ td.gps.lon ∧ td.gps.lon ≤ 180) ∧
    (0 ≤ td.battery.remaining ∧ td.battery.remaining ≤ 100) ∧
    (td.flight_mode ∈ flightModeTable.map Prod.snd ∨
      ∃ n : Nat, td.flight_mode = "MODE_" ++ toString n)

/-- Formalization of claim C8 as stated. -/
def snapshotRangeClaim : Prop :=
  ∀ msgs : List MavMessage, snapshotInRanges (runMessages msgs)

/-- Raw wire fields within their physical ranges: 1e7-scaled latitudes in
±90°, longitudes in ±180°, battery percentages in 0–100. -/
def wfMessage : MavMessage → Prop
  | MavMessage.globalPositionInt lat lon _ _ _ _ _ =>
    (-900000000 ≤ lat ∧ lat ≤ 900000000) ∧ (-1800000000 ≤ lon ∧ lon ≤ 1800000000)
  | MavMessage.gpsRawInt lat lon _ _ _ _ =>
    (-900000000 ≤ lat ∧ lat ≤ 900000000) ∧ (-1800000000 ≤ lon ∧ lon ≤ 1800000000)
  | MavMessage.sysStatus _ _ r => 0 ≤ r ∧ r ≤ 100
  | MavMessage.batteryStatus _ _ r => 0 ≤ r ∧ r ≤ 100
  | MavMessage.heartbeat _ _ _ => True

/-- The physical ranges, admitting the constructor's initial `UNKNOWN`
flight-mode string (present before any heartbeat is decoded). -/
def snapshotInRangesAmended (td : TelemetryData) : Prop :=
  (-90 ≤ td.gps.lat ∧ td.gps.lat ≤ 90) ∧
    (-180 ≤ td.gps.lon ∧ td.gps.lon ≤ 180) ∧
    (0 ≤ td.battery.remaining ∧ td.battery.remaining ≤ 100) ∧
    (td.flight_mode ∈ flightModeTable.map Prod.snd ∨
      (∃ n : Nat, td.flight_mode = "MODE_" ++ toString n) ∨
      td.flight_mode = "UNKNOWN")

end GCS.Telemetry

namespace GCS.Command

/-- The connection state `sendCommand` consults: `this.connected`,
`this.port` (with `isOpen`), and the outgoing `sequenceNumber`. -/
structure CmdLinkState where
  connected : Bool
  port : Option Bool
  sequenceNumber : Nat
deriving Repr, DecidableEq

/-- `this.connected && this.port && this.port.isOpen`. -/
def linkOpen (st : CmdLinkState) : Bool :=
  st.connected && st.port.getD false

/-- A COMMAND_LONG as populated by `sendCommand` (target ids fixed by the
connection, confirmation 0). -/
structure CommandLong where
  command : Nat
  param1 : Rat
  param2 : Rat
  param3 : Rat
  param4 : Rat
  param5 : Rat
  param6 : Rat
  param7 : Rat
deriving Repr, DecidableEq

/-- What `sendCommand` settles to: a rejected promise (`Not connected`) or
an immediately resolved `{success: true}` after serializing with the
current sequence number. -/
inductive SendResult where
  | notConnected
  | sent (cmd : CommandLong) (seq : Nat)
deriving Repr, DecidableEq

/-- `mavlink_handler.js` `sendCommand`: rejects when the link is not open,
otherwise serializes, bumps the sequence number and resolves success at
once — no acknowledgment is awaited. -/
def sendCommand (st : CmdLinkState) (cmd : CommandLong) :
    CmdLinkState × SendResult :=
  if linkOpen st then
    ({ st with sequenceNumber := st.sequenceNumber + 1 },
      SendResult.sent cmd st.sequenceNumber)
  else (st, SendResult.notConnected)

/-- The acknowledgment the vehicle would produce for a command, as the
specification's contract describes it. -/
inductive AckOutcome where
  | accepted (code : Nat)
  | rejected (code : Nat)
  | timeout
deriving Repr, DecidableEq

/-- The outcome language of the specification's `execute` contract,
extended with the outcome the serial-link implementation actually
produces (immediate success, no acknowledgment consulted). -/
inductive ExecOutcome where
  | notConnected
  | commandRejected
  | acceptedOk (code : Nat)
  | sentNoAck (seq : Nat)
deriving Repr, DecidableEq

/-- `sendCommand` viewed against an environment acknowledgment: the
implementation never reads `ack`, so the outcome is a function of the
link state alone. -/
def executeModel (st : CmdLinkState) (cmd : CommandLong) (_ack : AckOutcome) :
    ExecOutcome :=
  match (sendCommand st cmd).2 with
  | SendResult.notConnected => ExecOutcome.notConnected
  | SendResult.sent _ seq => ExecOutcome.sentNoAck seq

/-- Formalization of claim C1 as stated, for the serial-link `execute`. -/
def commandContractClaim : Prop :=
  ∀ (st : CmdLinkState) (cmd : CommandLong) (ack : AckOutcome),
    (linkOpen st = false → executeModel st cmd ack = ExecOutcome.notConnected) ∧
    (linkOpen st = true → ∀ code, ack = AckOutcome.rejected code →
      executeModel st cmd ack = ExecOutcome.commandRejected) ∧
    (linkOpen st = true → ack = AckOutcome.timeout →
      executeModel st cmd ack = ExecOutcome.commandRejected) ∧
    (linkOpen st = true → ∀ code, ack = AckOutcome.accepted code →
      executeModel st cmd ack = ExecOutcome.acceptedOk code)

/-- The endpoint switch of `pixhawkServicePyMAVLink.js` `sendCommand`:
known symbolic commands map to a service endpoint, anything else throws
`Unknown command`. -/
def commandEndpoint (droneId : Nat) (command : String) : Option String :=
  if command = "arm" then some ("/drone/" ++ toString droneId ++ "/arm")
  else if command = "disarm" then some ("/drone/" ++ toString droneId ++ "/disarm")
  else if command = "set_mode" then some ("/drone/" ++ toString droneId ++ "/mode")
  else if command = "takeoff" then some ("/drone/" ++ toString droneId ++ "/takeoff")
  else if command = "land" then some ("/drone/" ++ toString droneId ++ "/land")
  else if command = "rtl" then some ("/drone/" ++ toString droneId ++ "/rtl")
  else if command = "goto" then some ("/drone/" ++ toString droneId ++ "/goto")
  else none

/-- The delegated PyMAVLink HTTP call's result as `callPyMAVLink` reports
it. -/
structure PyResult where
  success : Bool
  payload : String
deriving Repr, DecidableEq

/-- `pixhawkServicePyMAVLink.js` `sendCommand`: throws `Drone not
connected` when the drone's connection entry is absent or not connected;
throws `Unknown command` outside the switch; otherwise propagates the
external service's verdict. -/
def sendCommandPy (conn : Option Bool) (droneId : Nat) (command : String)
    (ext : PyResult) : Except String String :=
  match conn with
  | none => Except.error "Drone not connected"
  | some false => Except.error "Drone not connected"
  | some true =>
    match commandEndpoint droneId command with
    | none => Except.error ("Unknown command: " ++ command)
    | some _ =>
      if ext.success then Except.ok ext.payload else Except.error ext.payload

end GCS.Command

namespace GCS.Mission

/-- An operator waypoint as supplied to the upload route. -/
structure Waypoint where
  latitude : Rat
  longitude : Rat
  altitude : Option Rat
deriving Repr, DecidableEq

/-- The MAVLink commands the expanded mission uses. -/
inductive MavCmd where
  | nav_waypoint
  | nav_takeoff
  | nav_return_to_launch
deriving Repr, DecidableEq

/-- One uploaded mission item. -/
structure MissionItem where
  latitude : Rat
  longitude : Rat
  altitude : Rat
  command : MavCmd
deriving Repr, DecidableEq

/-- Modelled from the spec: `upload_mission_waypoints` lives in
`external-services/pymavlink_service.py`, which is not under `src/` (only
the design note `src/unnamed/part_008` quotes its expansion).  Per spec
§4.6 the uploaded sequence for a non-empty operator list is
navigate-to-first-survey-point at low transit altitude (2 m), takeoff at
the first survey point at survey altitude (defaulting to 15 when the
waypoint carries none), the operator waypoints in order, and a
return-to-launch terminator; an empty list fails with a domain error. -/
def upload_mission_waypoints (waypoints : List Waypoint) :
    Option (List MissionItem) :=
  match waypoints with
  | [] => none
  | w0 :: _ =>
    let takeoffAlt := w0.altitude.getD 15
    let navToStart : MissionItem :=
      { latitude := w0.latitude, longitude := w0.longitude, altitude := 2
        command := MavCmd.nav_waypoint }
    let takeoff : MissionItem :=
      { latitude := w0.latitude, longitude := w0.longitude, altitude := takeoffAlt
        command := MavCmd.nav_takeoff }
    let survey := waypoints.map fun w =>
      { latitude := w.latitude, longitude := w.longitude
        altitude := w.altitude.getD 15
        command := MavCmd.nav_waypoint : MissionItem }
    let rtl : MissionItem :=
      { latitude := 0, longitude := 0, altitude := 0
        command := MavCmd.nav_return_to_launch }
    some (navToStart :: takeoff :: (survey ++ [rtl]))

end GCS.Mission

namespace GCS.Sprayer

theorem initiateRefillSequence_tank (st : SprayState) :
    (initiateRefillSequence st).tank = st.tank := by
  unfold initiateRefillSequence
  cases st.mission <;> rfl

theorem executeSprayMission_tank (cfg : SprayConfig) (st : SprayState) :
    (executeSprayMission cfg st).1.tank = st.tank := by
  unfold executeSprayMission
  split
  · rfl
  · split
    · rfl
    · split
      · rfl
      · split
        · rfl
        · split
          · exact initiateRefillSequence_tank st
          · rfl

theorem initializeSprayer_bounds (now : Nat) (st : SprayState)
    (h : tankWithinBounds st = true) :
    tankWithinBounds (initializeSprayer defaultConfig now st) = true := by
  unfold initializeSprayer
  cases htk : st.tank with
  | some t => simpa [htk] using h
  | none => simp [htk, tankWithinBounds, tankOptB, defaultConfig]

theorem stepOp_bounds (st : SprayState) (op : SprayOp)
    (hinv : tankWithinBounds st = true)
    (hsafe : safeHead defaultConfig st op = true) :
    tankWithinBounds (stepOp defaultConfig st op) = true := by
  cases op with
  | queueTargets now dets =>
    have h1 := initializeSprayer_bounds now st hinv
    simpa [stepOp, queueTargets, tankWithinBounds] using h1
  | start now =>
    have h1 := initializeSprayer_bounds now st hinv
    simp only [stepOp, startSprayMission]
    split
    · exact h1
    · split
      · exact h1
      · split
        · exact h1
        · unfold tankWithinBounds
          rw [executeSprayMission_tank]
          simpa [tankWithinBounds] using h1
  | execute =>
    simp only [stepOp]
    unfold tankWithinBounds
    rw [executeSprayMission_tank]
    exact hinv
  | completeTarget now tid success =>
    simp only [stepOp]
    unfold onSprayComplete
    cases hm : st.mission with
    | none => simpa only [hm] using hinv
    | some m =>
      cases hq : st.queue[m.current_target_index]? with
      | none => simpa only [hm, hq] using hinv
      | some t =>
        simp only [hm, hq]
        by_cases hid : t.target_id = tid
        · rw [if_pos hid]
          cases success with
          | false =>
            rw [if_neg Bool.false_ne_true]
            simpa only [tankWithinBounds] using hinv
          | true =>
            rw [if_pos rfl]
            cases htk : st.tank with
            | none => simpa only [htk] using hinv
            | some tank =>
              simp only [htk]
              have hd : dispensesOn st tid = true := by
                simp [dispensesOn, hm, hq, hid]
              have hs : (50 : Int) + 50 ≤ tank.current_volume_ml := by
                have h2 := hsafe
                simp [safeHead, hd, htk, defaultConfig] at h2
                omega
              have hb := hinv
              simp only [tankWithinBounds, tankOptB, htk, Bool.and_eq_true,
                decide_eq_true_eq] at hb
              simp only [tankWithinBounds, tankOptB, Bool.and_eq_true,
                decide_eq_true_eq, defaultConfig]
              exact ⟨⟨by omega, by omega⟩, by omega⟩
        · rw [if_neg hid]
          exact hinv
  | confirmRefill now =>
    simp only [stepOp, confirmRefill]
    split
    · exact hinv
    · next m hm =>
      split
      · exact hinv
      · next tank htk =>
        have hb := hinv
        simp only [tankWithinBounds, tankOptB, htk, Bool.and_eq_true,
          decide_eq_true_eq] at hb ⊢
        omega
  | stop now =>
    simp only [stepOp, stopMission]
    split
    · exact hinv
    · simpa [tankWithinBounds] using hinv

/-- C6 (counterexample): as stated, the tank invariant fails — queueing 21
targets, starting (tank 1000 ml) and acknowledging all 21 targets
successfully without the execution loop's volume check running in between
drives the tank to −50 ml, because `onSprayComplete` decrements the tank
unconditionally. -/
theorem sprayTankClaim_false : ¬ sprayTankClaim := by
  intro h
  exact absurd (h drainOps) (by decide)

/-- C6 (amended): `current ≤ capacity` and `0 ≤ current` hold for every
driver-guarded operation sequence — one in which each successful
`onSprayComplete` that dispenses runs while the tank still holds
`spray_volume_per_target_ml + 50` ml, the very condition
`executeSprayMission` checks before emitting `next_target`.  Without the
guard the tank can go negative (`onSprayComplete` never re-checks the
volume). -/
theorem tank_bounds_of_safeOps (ops : List SprayOp)
    (h : safeOps defaultConfig initState ops = true) :
    tankWithinBounds (runOps defaultConfig initState ops) = true := by
  suffices H : ∀ (ops : List SprayOp) (st : SprayState), tankWithinBounds st = true →
      safeOps defaultConfig st ops = true →
      tankWithinBounds (runOps defaultConfig st ops) = true from
    H ops initState rfl h
  intro ops
  induction ops with
  | nil =>
    intro st h1 _
    simpa [runOps] using h1
  | cons op rest ih =>
    intro st h1 h2
    rw [safeOps, Bool.and_eq_true] at h2
    have h3 := stepOp_bounds st op h1 h2.1
    simpa [runOps] using ih (stepOp defaultConfig st op) h3 h2.2

/-- Witness for the amended C6 theorem: a concrete guarded sequence
(queue one target, start, acknowledge it, run the loop) keeps the tank in
bounds. -/
theorem tank_bounds_of_safeOps_witness :
    safeOps defaultConfig initState
        [SprayOp.queueTargets 0 [⟨7, 1, 2, none, 0, none⟩], SprayOp.start 1,
          SprayOp.completeTarget 2 (0, 0) true, SprayOp.execute] = true ∧
      tankWithinBounds (runOps defaultConfig initState
        [SprayOp.queueTargets 0 [⟨7, 1, 2, none, 0, none⟩], SprayOp.start 1,
          SprayOp.completeTarget 2 (0, 0) true, SprayOp.execute]) = true :=
  ⟨by decide, tank_bounds_of_safeOps _ (by decide)⟩

/-- C5 (counterexample): stopping a mission does not clear the spray
queue — after queueing one target and starting, `stopMission` removes the
mission but the queue still holds the target. -/
theorem stopClearsQueueClaim_false : ¬ stopClearsQueueClaim := by
  intro h
  have h2 := h 2 (runOps defaultConfig initState
    [SprayOp.queueTargets 0 [⟨0, 0, 0, none, 0, none⟩], SprayOp.start 1]) (by decide)
  exact absurd h2.2 (by decide)

/-- C5 (amended): `stopMission` on a vehicle with an active spray mission
is terminal — the mission record is deleted — and succeeds, but the spray
target queue is left unchanged (it is cleared only by `completeMission`
or an explicit `clearQueue`). -/
theorem stopMission_terminal_queue_unchanged (now : Nat) (st : SprayState)
    (h : st.mission.isSome = true) :
    stopMission now st = ({ st with mission := none }, true) := by
  unfold stopMission
  cases hm : st.mission with
  | none => rw [hm] at h; simp at h
  | some m => rfl

/-- Witness for the amended C5 theorem at a concrete state with an active
mission and a nonempty queue. -/
theorem stopMission_terminal_queue_unchanged_witness :
    (({ mission := some
          { mission_id := 1, status := MissionStatus.active, started_at := 1
            ended_at := none, current_target_index := 0, total_targets := 1
            targets_completed := 0, targets_failed := 0, paused_for_refill := false
            refills_during_mission := 0, home_location := none
            last_sprayed_index := -1 }
        queue := [{ target_id := (0, 0), detection_id := 5, latitude := 1
                    longitude := 2, altitude := 5, spray_volume_ml := 50
                    status := TargetStatus.queued, queued_at := 0, sprayed_at := none
                    confidence := 0, priority := 1 }]
        tank := none : SprayState }).mission.isSome = true) ∧
      stopMission 3
          { mission := some
              { mission_id := 1, status := MissionStatus.active, started_at := 1
                ended_at := none, current_target_index := 0, total_targets := 1
                targets_completed := 0, targets_failed := 0, paused_for_refill := false
                refills_during_mission := 0, home_location := none
                last_sprayed_index := -1 }
            queue := [{ target_id := (0, 0), detection_id := 5, latitude := 1
                        longitude := 2, altitude := 5, spray_volume_ml := 50
                        status := TargetStatus.queued, queued_at := 0, sprayed_at := none
                        confidence := 0, priority := 1 }]
            tank := none } =
        ({ mission := none
           queue := [{ target_id := (0, 0), detection_id := 5, latitude := 1
                       longitude := 2, altitude := 5, spray_volume_ml := 50
                       status := TargetStatus.queued, queued_at := 0, sprayed_at := none
                       confidence := 0, priority := 1 }]
           tank := none }, true) :=
  ⟨by decide, stopMission_terminal_queue_unchanged 3 _ (by decide)⟩

/-- C7: `confirmRefill` on a vehicle with an active spray mission sets the
tank to capacity, increments the refill count, reactivates the mission,
succeeds, and schedules an execution resume exactly when
`auto_resume_after_refill` is set. -/
theorem confirmRefill_spec (cfg : SprayConfig) (now : Nat) (st : SprayState)
    (m : SprayMission) (tank : Tank) (hm : st.mission = some m)
    (ht : st.tank = some tank) :
    (confirmRefill cfg now st).state.tank =
        some { tank with
                current_volume_ml := tank.capacity_ml
                refills_count := tank.refills_count + 1
                last_refill_time := now } ∧
      (confirmRefill cfg now st).state.mission =
        some { m with status := MissionStatus.active, paused_for_refill := false } ∧
      (confirmRefill cfg now st).success = true ∧
      (confirmRefill cfg now st).resumeScheduled = cfg.auto_resume_after_refill := by
  unfold confirmRefill
  simp [hm, ht]

/-- Witness for the C7 theorem at a concrete refilling state. -/
theorem confirmRefill_spec_witness :
    (confirmRefill defaultConfig 9
        { mission := some
            { mission_id := 1, status := MissionStatus.refilling, started_at := 1
              ended_at := none, current_target_index := 2, total_targets := 4
              targets_completed := 2, targets_failed := 0, paused_for_refill := true
              refills_during_mission := 1, home_location := none
              last_sprayed_index := 1 }
          queue := []
          tank := some { current_volume_ml := 50, capacity_ml := 1000
                         refills_count := 0, last_refill_time := 0
                         total_sprayed_ml := 950 } }).state.tank =
      some { current_volume_ml := 1000, capacity_ml := 1000, refills_count := 1
             last_refill_time := 9, total_sprayed_ml := 950 } :=
  (confirmRefill_spec defaultConfig 9 _ _ _ rfl rfl).1

/-- C10: `onSprayComplete` with a target id that does not match the
current target (or with no active mission, or no current target at the
index) leaves the whole state — tank, counters, targets and index —
unchanged. -/
theorem onSprayComplete_frame (cfg : SprayConfig) (now : Nat) (tid : Nat × Nat)
    (success : Bool) (st : SprayState) (h : dispensesOn st tid = false) :
    onSprayComplete cfg now tid success st = st := by
  unfold onSprayComplete
  unfold dispensesOn at h
  cases hm : st.mission with
  | none => simp [hm]
  | some m =>
    simp only [hm] at h ⊢
    cases hq : st.queue[m.current_target_index]? with
    | none => simp [hq]
    | some t =>
      simp only [hq] at h ⊢
      have hne : ¬ (t.target_id = tid) := by
        simpa using h
      simp [hne]

/-- Witness for the C10 theorem: a completion for a mismatched target id
on a running mission changes nothing. -/
theorem onSprayComplete_frame_witness :
    dispensesOn (runOps defaultConfig initState
        [SprayOp.queueTargets 0 [⟨0, 0, 0, none, 0, none⟩], SprayOp.start 1]) (9, 9)
        = false ∧
      onSprayComplete defaultConfig 2 (9, 9) true
          (runOps defaultConfig initState
            [SprayOp.queueTargets 0 [⟨0, 0, 0, none, 0, none⟩], SprayOp.start 1]) =
        runOps defaultConfig initState
          [SprayOp.queueTargets 0 [⟨0, 0, 0, none, 0, none⟩], SprayOp.start 1] :=
  ⟨by decide, onSprayComplete_frame defaultConfig 2 (9, 9) true _ (by decide)⟩

end GCS.Sprayer

namespace GCS.Detect

theorem processStatustextForDetections_append {α : Type} [DecidableEq α]
    (rs ss : List (DetRecord α)) (seen : SeenSet α) :
    processStatustextForDetections seen (rs ++ ss) =
      ((processStatustextForDetections
          (processStatustextForDetections seen rs).1 ss).1,
        (processStatustextForDetections seen rs).2 ++
          (processStatustextForDetections
            (processStatustextForDetections seen rs).1 ss).2) := by
  induction rs generalizing seen with
  | nil => simp [processStatustextForDetections]
  | cons r rs ih =>
    simp only [List.cons_append, processStatustextForDetections, List.append_eq]
    rw [ih]
    simp [List.append_assoc]

theorem processStatustextForDetections_nil {α : Type} [DecidableEq α]
    (seen : SeenSet α) :
    processStatustextForDetections seen ([] : List (DetRecord α)) = (seen, []) := rfl

theorem processStatustextForDetections_cons {α : Type} [DecidableEq α]
    (seen : SeenSet α) (r : DetRecord α) (rs : List (DetRecord α)) :
    processStatustextForDetections seen (r :: rs) =
      ((processStatustextForDetections (processRecord seen r).1 rs).1,
        (if (processRecord seen r).2 then [r.id] else []) ++
          (processStatustextForDetections (processRecord seen r).1 rs).2) := rfl

theorem processRecord_fresh_small {seen : SeenSet Nat} {id : Nat}
    (hid : id ∉ seen) (hlen : seen.length + 1 ≤ 1000) :
    processRecord seen ⟨id, false⟩ = (seen ++ [id], false) := by
  have hno : ¬ (1000 < (seen ++ [id]).length) := by
    simp only [List.length_append, List.length_singleton]
    omega
  unfold processRecord
  rw [if_neg hid, if_neg hno]
  simp [saveDetection]

theorem process_fresh_batch (b : Nat) :
    ∀ a : Nat, a + b ≤ 1000 →
      processStatustextForDetections (List.range a)
          ((List.range b).map fun i => (⟨a + i, false⟩ : DetRecord Nat)) =
        (List.range (a + b), []) := by
  induction b with
  | zero => intro a _; simp [processStatustextForDetections]
  | succ n ih =>
    intro a h
    rw [List.range_succ_eq_map]
    simp only [List.map_cons, List.map_map]
    have hfun :
        (List.range n).map ((fun i => (⟨a + i, false⟩ : DetRecord Nat)) ∘ Nat.succ) =
          (List.range n).map fun i => (⟨a + 1 + i, false⟩ : DetRecord Nat) := by
      apply List.map_congr_left
      intro i _
      simp only [Function.comp]
      congr 1
      omega
    rw [hfun]
    simp only [processStatustextForDetections]
    have hfresh : a + 0 ∉ List.range a := by
      simp [List.mem_range]
    have hstep : processRecord (List.range a) ⟨a + 0, false⟩ =
        (List.range a ++ [a + 0], false) := by
      apply processRecord_fresh_small hfresh
      simp only [List.length_range]
      omega
    rw [hstep]
    have hrange : List.range a ++ [a + 0] = List.range (a + 1) := by
      simp [List.range_succ]
    rw [hrange]
    have hrec := ih (a + 1) (by omega)
    rw [hrec]
    have : a + 1 + n = a + (n + 1) := by omega
    rw [this]
    simp

theorem drop_range_1001 : (List.range 1001).drop 100 = List.range' 100 901 := by
  rw [List.range_eq_range']
  have hsplit : List.range' 0 1001 = List.range' 0 100 ++ List.range' 100 901 := by
    have h := List.range'_append_1 0 100 901
    norm_num at h
    exact h.symm
  rw [hsplit]
  exact List.drop_left' (List.length_range' 0 1 100)

set_option maxRecDepth 8000 in
theorem process_eviction_emits :
    (processStatustextForDetections ([] : SeenSet Nat) evictionRecords).2 = [0, 0] := by
  have hmid : ((List.range 1000).map fun i => (⟨1 + i, false⟩ : DetRecord Nat)) =
      ((List.range 999).map fun i => (⟨1 + i, false⟩ : DetRecord Nat)) ++
        [⟨1000, false⟩] := by
    have h : List.range 1000 = List.range 999 ++ [999] := List.range_succ 999
    rw [h, List.map_append]
    rfl
  have hrange1001 : List.range 1000 ++ [(1000 : Nat)] = List.range 1001 :=
    (List.range_succ 1000).symm
  have hp0 : processRecord ([] : SeenSet Nat) ⟨0, true⟩ = (List.range 1, true) := by
    decide
  have hbatch := process_fresh_batch 999 1 (by omega)
  have h1000 : (1 : Nat) + 999 = 1000 := rfl
  have hp1000 : processRecord (List.range 1000) ⟨1000, false⟩ =
      ((List.range 1001).drop 100, false) := by
    have hfresh : (1000 : Nat) ∉ List.range 1000 := by simp [List.mem_range]
    have hlen : 1000 < (List.range 1000 ++ [(1000 : Nat)]).length := by
      simp only [List.length_append, List.length_singleton, List.length_range]
      omega
    unfold processRecord
    rw [if_neg hfresh, if_pos hlen, hrange1001]
    simp [saveDetection]
  have hp0' : processRecord ((List.range 1001).drop 100) ⟨0, true⟩ =
      (((List.range 1001).drop 100) ++ [0], true) := by
    have hnot : (0 : Nat) ∉ (List.range 1001).drop 100 := by
      rw [drop_range_1001]
      intro hmem
      rw [List.mem_range'] at hmem
      obtain ⟨i, _, hi⟩ := hmem
      omega
    have hlen : ¬ (1000 < (((List.range 1001).drop 100) ++ [0]).length) := by
      rw [drop_range_1001]
      simp only [List.length_append, List.length_singleton, List.length_range']
      omega
    unfold processRecord
    rw [if_neg hnot, if_neg hlen]
    simp [saveDetection]
  unfold evictionRecords
  simp only [List.cons_append]
  rw [processStatustextForDetections_cons]
  simp only [hp0]
  rw [hmid, List.append_assoc, processStatustextForDetections_append]
  simp only [hbatch, h1000]
  simp only [List.cons_append, List.nil_append]
  rw [processStatustextForDetections_cons]
  simp only [hp1000]
  rw [processStatustextForDetections_cons]
  simp only [hp0', processStatustextForDetections_nil]
  simp

/-- C4 (counterexample): the at-most-once claim fails once the seen-set
overflows — id 0 is emitted, 1000 further distinct ids push the set past
1000 entries so the 100 oldest ids (id 0 among them) are evicted, and the
re-arrival of id 0 is emitted a second time. -/
theorem dedupClaim_false : ¬ dedupClaim := by
  intro h
  have h2 := h evictionRecords 0
  rw [process_eviction_emits] at h2
  simp [List.count_cons] at h2

theorem emit_bound_aux {α : Type} [DecidableEq α] :
    ∀ (rs : List (DetRecord α)) (seen : SeenSet α) (id : α),
      seen.length + rs.length ≤ 1000 →
      (processStatustextForDetections seen rs).2.count id ≤ 1 ∧
        (id ∈ seen → (processStatustextForDetections seen rs).2.count id = 0) := by
  intro rs
  induction rs with
  | nil =>
    intro seen id _
    simp [processStatustextForDetections]
  | cons r rs ih =>
    intro seen id h
    simp only [List.length_cons] at h
    by_cases hmem : r.id ∈ seen
    · have hpr : processRecord seen r = (seen, false) := by
        unfold processRecord
        rw [if_pos hmem]
      simp only [processStatustextForDetections, hpr, Bool.false_eq_true,
        if_false, List.nil_append]
      exact ih seen id (by omega)
    · have hno : ¬ (1000 < (seen ++ [r.id]).length) := by
        simp only [List.length_append, List.length_singleton]
        omega
      have hpr : processRecord seen r =
          (seen ++ [r.id], (saveDetection r.missionActive r.id).isSome) := by
        unfold processRecord
        rw [if_neg hmem, if_neg hno]

      simp only [processStatustextForDetections, hpr]
      have hrec := ih (seen ++ [r.id]) id
        (by simp only [List.length_append, List.length_singleton]; omega)
      rw [List.count_append]
      constructor
      · by_cases hid : id = r.id
        · have hr0 := hrec.2 (by simp [hid])
          have hhead :
              (if (saveDetection r.missionActive r.id).isSome = true
                then [r.id] else []).count id ≤ 1 := by
            split
            · rw [List.count_singleton]
              split <;> omega
            · simp
          omega
        · have hhead :
              (if (saveDetection r.missionActive r.id).isSome = true
                then [r.id] else []).count id = 0 := by
            split
            · rw [List.count_singleton]
              rw [if_neg (by simp; exact fun he => hid he.symm)]
            · simp
          have := hrec.1
          omega
      · intro hin
        have hid : id ≠ r.id := fun he => hmem (he ▸ hin)
        have hhead :
            (if (saveDetection r.missionActive r.id).isSome = true
              then [r.id] else []).count id = 0 := by
          split
          · rw [List.count_singleton]
            rw [if_neg (by simp; exact fun he => hid he.symm)]
          · simp
        have hr0 := hrec.2 (by simp [hin])
        omega

/-- C4 (amended): at most one `crop_detection` event is emitted per
detection id provided the id is not evicted from the bounded seen-id set
— in particular over any batch of at most 1000 records.  The set is
bounded: when it grows past 1000 entries the 100 oldest ids are dropped
(FIFO), and an evicted id that arrives again is re-emitted. -/
theorem emit_at_most_once_small {α : Type} [DecidableEq α]
    (rs : List (DetRecord α)) (id : α) (h : rs.length ≤ 1000) :
    (processStatustextForDetections ([] : SeenSet α) rs).2.count id ≤ 1 :=
  (emit_bound_aux rs [] id (by simpa using h)).1

/-- Witness for the amended C4 theorem: a duplicated id in a two-record
batch is emitted once. -/
theorem emit_at_most_once_small_witness :
    ([(⟨3, true⟩ : DetRecord Nat), ⟨3, true⟩].length ≤ 1000) ∧
      (processStatustextForDetections ([] : SeenSet Nat)
        [⟨3, true⟩, ⟨3, true⟩]).2.count 3 ≤ 1 :=
  ⟨by decide, emit_at_most_once_small [⟨3, true⟩, ⟨3, true⟩] 3 (by decide)⟩

/-- C9: a `DET` record whose id is fresh but whose drone has no active
survey mission produces no `crop_detection` event, yet its id still lands
in the processed set; and any record whose id is already in the set is
dropped with no state change — even when a mission is active by then. -/
theorem inactive_mission_blocks_id :
    (∀ (seen : SeenSet Nat) (id : Nat), id ∉ seen →
        (processRecord seen ⟨id, false⟩).2 = false ∧
          id ∈ (processRecord seen ⟨id, false⟩).1) ∧
      (∀ (seen : SeenSet Nat) (id : Nat) (active : Bool), id ∈ seen →
        processRecord seen ⟨id, active⟩ = (seen, false)) := by
  constructor
  · intro seen id hid
    unfold processRecord
    rw [if_neg hid]
    refine ⟨rfl, ?_⟩
    by_cases hlen : 1000 < (seen ++ [id]).length
    · rw [if_pos hlen]
      have h100 : 100 ≤ seen.length := by
        simp only [List.length_append, List.length_singleton] at hlen
        omega
      rw [List.drop_append_of_le_length h100]
      simp
    · rw [if_neg hlen]
      simp
  · intro seen id active hid
    unfold processRecord
    rw [if_pos hid]

/-- Witness for the C9 theorem: id 7 arrives without a mission (not
emitted, but recorded), then arrives with a mission active and is still
dropped. -/
theorem inactive_mission_blocks_id_witness :
    ((7 : Nat) ∉ ([] : SeenSet Nat) ∧
        (processRecord ([] : SeenSet Nat) ⟨7, false⟩).2 = false ∧
          7 ∈ (processRecord ([] : SeenSet Nat) ⟨7, false⟩).1) ∧
      ((7 : Nat) ∈ ([7] : SeenSet Nat) ∧
        processRecord ([7] : SeenSet Nat) ⟨7, true⟩ = ([7], false)) :=
  ⟨⟨by decide, inactive_mission_blocks_id.1 [] 7 (by decide)⟩,
    ⟨by decide, inactive_mission_blocks_id.2 [7] 7 true (by decide)⟩⟩

end GCS.Detect

namespace GCS.Link

theorem foldl_stepConnected_eq (tr : List TimedEvent) (acc : Bool) :
    List.foldl (fun c e => stepConnected c e.ev) acc tr =
      (match (tr.filter fun e => isPortEvent e.ev).getLast? with
       | some e => decide (e.ev = LinkEvent.portOpen)
       | none => acc) := by
  induction tr generalizing acc with
  | nil => rfl
  | cons e tr ih =>
    simp only [List.foldl_cons]
    rw [ih]
    cases hev : e.ev with
    | portOpen =>
      rw [List.filter_cons_of_pos (by rw [hev]; rfl), List.getLast?_cons]
      cases hl : (tr.filter fun x => isPortEvent x.ev).getLast? with
      | none => simp [stepConnected, hev]
      | some e2 => simp
    | portClose =>
      rw [List.filter_cons_of_pos (by rw [hev]; rfl), List.getLast?_cons]
      cases hl : (tr.filter fun x => isPortEvent x.ev).getLast? with
      | none => simp [stepConnected, hev]
      | some e2 => simp
    | portError =>
      rw [List.filter_cons_of_pos (by rw [hev]; rfl), List.getLast?_cons]
      cases hl : (tr.filter fun x => isPortEvent x.ev).getLast? with
      | none => simp [stepConnected, hev]
      | some e2 => simp
    | disconnectCall =>
      rw [List.filter_cons_of_pos (by rw [hev]; rfl), List.getLast?_cons]
      cases hl : (tr.filter fun x => isPortEvent x.ev).getLast? with
      | none => simp [stepConnected, hev]
      | some e2 => simp
    | heartbeat b c s =>
      rw [List.filter_cons_of_neg (by rw [hev]; exact Bool.false_ne_true)]
      simp only [hev, stepConnected]

/-- C3 (counterexample): a link whose port opened at t = 0 and that has
received no heartbeat at all is still `connected` at t = 10 — the
connected flag tracks only port events, with no heartbeat-timeout or
missed-heartbeat transition. -/
theorem heartbeatTimeoutClaim_false : ¬ heartbeatTimeoutClaim := by
  intro h
  have h2 := h [⟨0, LinkEvent.portOpen⟩] 10 (by decide)
  exact absurd h2 (by decide)

/-- C3 (amended): the link is `connected` exactly when the transport is
open (the most recent port event was `open`), and inbound heartbeats —
however delayed or absent — never change the connected flag; no
missed-heartbeat disconnect exists. -/
theorem connected_tracks_port_only :
    (∀ tr : List TimedEvent, connectedAfter tr = transportOpen tr) ∧
      (∀ (tr : List TimedEvent) (t b c s : Nat),
        connectedAfter (tr ++ [⟨t, LinkEvent.heartbeat b c s⟩]) = connectedAfter tr) := by
  constructor
  · intro tr
    unfold connectedAfter transportOpen
    exact foldl_stepConnected_eq tr false
  · intro tr t b c s
    unfold connectedAfter
    rw [List.foldl_append]
    rfl

end GCS.Link

namespace GCS.Telemetry

theorem lat_scaled_range {x : Int} (h1 : -900000000 ≤ x) (h2 : x ≤ 900000000) :
    -90 ≤ (x : Rat) / 10000000 ∧ (x : Rat) / 10000000 ≤ 90 := by
  constructor
  · have h : ((-900000000 : Int) : Rat) / 10000000 ≤ (x : Rat) / 10000000 :=
      (div_le_div_iff_of_pos_right (by norm_num)).2 (by exact_mod_cast h1)
    calc (-90 : Rat) = ((-900000000 : Int) : Rat) / 10000000 := by norm_num
      _ ≤ (x : Rat) / 10000000 := h
  · have h : (x : Rat) / 10000000 ≤ ((900000000 : Int) : Rat) / 10000000 :=
      (div_le_div_iff_of_pos_right (by norm_num)).2 (by exact_mod_cast h2)
    calc (x : Rat) / 10000000 ≤ ((900000000 : Int) : Rat) / 10000000 := h
      _ = 90 := by norm_num

theorem lon_scaled_range {x : Int} (h1 : -1800000000 ≤ x) (h2 : x ≤ 1800000000) :
    -180 ≤ (x : Rat) / 10000000 ∧ (x : Rat) / 10000000 ≤ 180 := by
  constructor
  · have h : ((-1800000000 : Int) : Rat) / 10000000 ≤ (x : Rat) / 10000000 :=
      (div_le_div_iff_of_pos_right (by norm_num)).2 (by exact_mod_cast h1)
    calc (-180 : Rat) = ((-1800000000 : Int) : Rat) / 10000000 := by norm_num
      _ ≤ (x : Rat) / 10000000 := h
  · have h : (x : Rat) / 10000000 ≤ ((1800000000 : Int) : Rat) / 10000000 :=
      (div_le_div_iff_of_pos_right (by norm_num)).2 (by exact_mod_cast h2)
    calc (x : Rat) / 10000000 ≤ ((1800000000 : Int) : Rat) / 10000000 := h
      _ = 180 := by norm_num

theorem parseFlightMode_ok (n : Nat) :
    parseFlightMode n ∈ flightModeTable.map Prod.snd ∨
      ∃ k : Nat, parseFlightMode n = "MODE_" ++ toString k := by
  unfold parseFlightMode
  cases hl : flightModeTable.lookup n with
  | none => exact Or.inr ⟨n, rfl⟩
  | some s =>
    left
    obtain ⟨l₁, l₂, heq, -⟩ := List.lookup_eq_some_iff.mp hl
    have hmem : (n, s) ∈ flightModeTable := by
      rw [heq]
      simp
    exact List.mem_map.mpr ⟨(n, s), hmem, rfl⟩

theorem initialTelemetry_ok : snapshotInRangesAmended initialTelemetry := by
  refine ⟨⟨?_, ?_⟩, ⟨?_, ?_⟩, ⟨?_, ?_⟩, Or.inr (Or.inr rfl)⟩ <;>
    norm_num [initialTelemetry]

theorem applyMessage_ranges {td : TelemetryData} {msg : MavMessage}
    (h : snapshotInRangesAmended td) (hw : wfMessage msg) :
    snapshotInRangesAmended (applyMessage td msg) := by
  obtain ⟨⟨hla1, hla2⟩, ⟨hlo1, hlo2⟩, ⟨hb1, hb2⟩, hm⟩ := h
  cases msg with
  | heartbeat customMode baseMode systemStatus =>
    simp only [applyMessage, handleHeartbeat]
    refine ⟨⟨hla1, hla2⟩, ⟨hlo1, hlo2⟩, ⟨hb1, hb2⟩, ?_⟩
    rcases parseFlightMode_ok customMode with h1 | h1
    · exact Or.inl h1
    · exact Or.inr (Or.inl h1)
  | globalPositionInt lat lon alt relAlt hdg vx vy =>
    obtain ⟨⟨hw1, hw2⟩, ⟨hw3, hw4⟩⟩ := hw
    simp only [applyMessage, handleGlobalPosition]
    exact ⟨lat_scaled_range hw1 hw2, lon_scaled_range hw3 hw4, ⟨hb1, hb2⟩, hm⟩
  | gpsRawInt lat lon alt eph sats fix =>
    obtain ⟨⟨hw1, hw2⟩, ⟨hw3, hw4⟩⟩ := hw
    simp only [applyMessage, handleGpsRaw]
    split
    · exact ⟨lat_scaled_range hw1 hw2, lon_scaled_range hw3 hw4, ⟨hb1, hb2⟩, hm⟩
    · exact ⟨⟨hla1, hla2⟩, ⟨hlo1, hlo2⟩, ⟨hb1, hb2⟩, hm⟩
  | sysStatus v c r =>
    simp only [applyMessage, handleSysStatus]
    exact ⟨⟨hla1, hla2⟩, ⟨hlo1, hlo2⟩, hw, hm⟩
  | batteryStatus vs c r =>
    simp only [applyMessage, handleBatteryStatus]
    exact ⟨⟨hla1, hla2⟩, ⟨hlo1, hlo2⟩, hw, hm⟩

theorem unknown_ne_mode (n : Nat) : "UNKNOWN" ≠ "MODE_" ++ toString n := by
  intro h
  have h2 := congrArg String.data h
  rw [String.data_append] at h2
  have hu : "UNKNOWN".data = ['U', 'N', 'K', 'N', 'O', 'W', 'N'] := rfl
  have hm5 : "MODE_".data = ['M', 'O', 'D', 'E', '_'] := rfl
  rw [hu, hm5] at h2
  have h3 := congrArg List.head? h2
  simp at h3

/-- C8 (counterexample): the claim fails on the code as stated — a decoded
SYS_STATUS with `batteryRemaining = -1` (the protocol's "unknown" value)
is stored raw, leaving the snapshot's battery percentage at −1, outside
[0,100]; and before any heartbeat the flight-mode string is the
constructor's `UNKNOWN`, which is neither a defined symbol nor
`MODE_<n>`. -/
theorem snapshotRangeClaim_false :
    ¬ snapshotRangeClaim ∧ ¬ snapshotInRanges (runMessages []) := by
  constructor
  · intro h
    have h2 := h [MavMessage.sysStatus 12000 500 (-1)]
    obtain ⟨-, -, ⟨hb, -⟩, -⟩ := h2
    have hr : (runMessages [MavMessage.sysStatus 12000 500 (-1)]).battery.remaining
        = -1 := rfl
    rw [hr] at hb
    norm_num at hb
  · intro h
    obtain ⟨-, -, -, hm⟩ := h
    have hmode : (runMessages []).flight_mode = "UNKNOWN" := rfl
    rw [hmode] at hm
    rcases hm with hmem | ⟨n, hn⟩
    · revert hmem
      decide
    · exact unknown_ne_mode n hn

/-- C8 (amended): after any sequence of decoded messages whose raw wire
fields are physically valid (1e7-scaled latitudes within ±90°, longitudes
within ±180°, battery percentages in 0–100), the snapshot's latitude lies
in [-90, 90], longitude in [-180, 180] and battery percent in [0, 100];
the flight-mode string is always a defined symbolic name, `MODE_<n>`, or
the pre-heartbeat initial `UNKNOWN`. -/
theorem snapshot_ranges_of_wf (msgs : List MavMessage)
    (h : ∀ m ∈ msgs, wfMessage m) :
    snapshotInRangesAmended (runMessages msgs) := by
  suffices H : ∀ (msgs : List MavMessage) (td : TelemetryData),
      snapshotInRangesAmended td → (∀ m ∈ msgs, wfMessage m) →
      snapshotInRangesAmended (msgs.foldl applyMessage td) from
    H msgs initialTelemetry initialTelemetry_ok h
  intro msgs
  induction msgs with
  | nil =>
    intro td h1 _
    simpa using h1
  | cons m ms ih =>
    intro td h1 h2
    simp only [List.foldl_cons]
    exact ih (applyMessage td m) (applyMessage_ranges h1 (h2 m (by simp)))
      fun x hx => h2 x (by simp [hx])

/-- Witness for the amended C8 theorem: a heartbeat announcing ArduCopter
mode 3 with the armed bit set yields an in-range snapshot. -/
theorem snapshot_ranges_of_wf_witness :
    (∀ m ∈ [MavMessage.heartbeat 3 128 4], wfMessage m) ∧
      snapshotInRangesAmended (runMessages [MavMessage.heartbeat 3 128 4]) :=
  ⟨by intro m hm; simp at hm; subst hm; trivial,
    snapshot_ranges_of_wf _ (by intro m hm; simp at hm; subst hm; trivial)⟩

end GCS.Telemetry

namespace GCS.Command

/-- C1 (counterexample): with an open link, `sendCommand` reports success
immediately after writing the packet, even when the vehicle's
acknowledgment is a rejection — no `CommandRejected` outcome exists in
the serial-link implementation. -/
theorem commandContractClaim_false : ¬ commandContractClaim := by
  intro h
  have h2 := (h ⟨true, some true, 0⟩ ⟨400, 1, 0, 0, 0, 0, 0, 0⟩
    (AckOutcome.rejected 4)).2.1 (by decide) 4 rfl
  exact absurd h2 (by decide)

/-- C1 (amended): both `execute` implementations fail with a
not-connected error when the vehicle's link is not open; beyond that, the
serial-link implementation serializes the command, bumps the sequence
counter and succeeds immediately — its outcome is independent of any
acknowledgment, so no acknowledgment-based rejection or 3 s timeout
exists there — while the PyMAVLink-service implementation forwards the
external service's verdict unchanged. -/
theorem command_send_behavior :
    (∀ (st : CmdLinkState) (cmd : CommandLong), linkOpen st = false →
        sendCommand st cmd = (st, SendResult.notConnected)) ∧
      (∀ (st : CmdLinkState) (cmd : CommandLong), linkOpen st = true →
        sendCommand st cmd =
          ({ st with sequenceNumber := st.sequenceNumber + 1 },
            SendResult.sent cmd st.sequenceNumber)) ∧
      (∀ (st : CmdLinkState) (cmd : CommandLong) (a a' : AckOutcome),
        executeModel st cmd a = executeModel st cmd a') ∧
      (∀ (droneId : Nat) (command : String) (ext : PyResult),
        sendCommandPy none droneId command ext =
            Except.error "Drone not connected" ∧
          sendCommandPy (some false) droneId command ext =
            Except.error "Drone not connected") ∧
      (∀ (droneId : Nat) (command : String) (ext : PyResult) (ep : String),
        commandEndpoint droneId command = some ep →
        sendCommandPy (some true) droneId command ext =
          (if ext.success then Except.ok ext.payload
           else Except.error ext.payload)) := by
  refine ⟨?_, ?_, ?_, ?_, ?_⟩
  · intro st cmd h
    simp [sendCommand, h]
  · intro st cmd h
    simp [sendCommand, h]
  · intro st cmd a a'
    rfl
  · intro d c ext
    exact ⟨rfl, rfl⟩
  · intro d c ext ep h
    simp [sendCommandPy, h]

/-- Witness for the amended C1 theorem at concrete states: a closed link
rejects with not-connected, an open link succeeds at once, and the
service path propagates an accepted verdict. -/
theorem command_send_behavior_witness :
    (linkOpen ⟨false, none, 0⟩ = false ∧
        sendCommand ⟨false, none, 0⟩ ⟨400, 1, 0, 0, 0, 0, 0, 0⟩ =
          (⟨false, none, 0⟩, SendResult.notConnected)) ∧
      (linkOpen ⟨true, some true, 7⟩ = true ∧
        sendCommand ⟨true, some true, 7⟩ ⟨400, 1, 0, 0, 0, 0, 0, 0⟩ =
          (⟨true, some true, 8⟩, SendResult.sent ⟨400, 1, 0, 0, 0, 0, 0, 0⟩ 7)) ∧
      (commandEndpoint 1 "arm" = some "/drone/1/arm" ∧
        sendCommandPy (some true) 1 "arm" ⟨true, "ok"⟩ = Except.ok "ok") := by
  refine ⟨⟨by decide, command_send_behavior.1 _ _ (by decide)⟩,
    ⟨by decide, ?_⟩, ⟨by decide, ?_⟩⟩
  · rw [command_send_behavior.2.1 _ _ (by decide)]
  · rw [command_send_behavior.2.2.2.2 1 "arm" ⟨true, "ok"⟩ "/drone/1/arm" (by decide)]
    rfl

end GCS.Command

namespace GCS.Mission

/-- C2: for every non-empty operator waypoint list of length N, the
modelled upload expansion has exactly N+3 items: a navigate-to-first
survey point at the low transit altitude of 2 m, a takeoff at the first
survey point at survey altitude, the N operator waypoints in order, and a
return-to-launch terminator. -/
theorem upload_expansion_shape (w0 : Waypoint) (rest : List Waypoint) :
    ∃ items, upload_mission_waypoints (w0 :: rest) = some items ∧
      items.length = (w0 :: rest).length + 3 ∧
      items[0]? = some ⟨w0.latitude, w0.longitude, 2, MavCmd.nav_waypoint⟩ ∧
      items[1]? =
        some ⟨w0.latitude, w0.longitude, w0.altitude.getD 15, MavCmd.nav_takeoff⟩ ∧
      (∀ i, i < (w0 :: rest).length →
        items[i + 2]? = ((w0 :: rest)[i]?).map fun w =>
          (⟨w.latitude, w.longitude, w.altitude.getD 15, MavCmd.nav_waypoint⟩ :
            MissionItem)) ∧
      items.getLast? = some ⟨0, 0, 0, MavCmd.nav_return_to_launch⟩ := by
  refine ⟨_, rfl, ?_, rfl, rfl, ?_, ?_⟩
  · simp [List.length_append]
  · intro i hi
    rw [show i + 2 = i + 1 + 1 from rfl, List.getElem?_cons_succ,
      List.getElem?_cons_succ, List.getElem?_append_left (by simpa using hi),
      List.getElem?_map]
  · show (_ :: _ :: (((w0 :: rest).map fun w =>
        (⟨w.latitude, w.longitude, w.altitude.getD 15, MavCmd.nav_waypoint⟩ :
          MissionItem)) ++
          [⟨0, 0, 0, MavCmd.nav_return_to_launch⟩])).getLast? = _
    rw [show ∀ (a b : MissionItem) (l : List MissionItem) (r : MissionItem),
        a :: b :: (l ++ [r]) = (a :: b :: l) ++ [r] from fun a b l r => by simp]
    exact List.getLast?_concat _

/-- Witness for the C2 theorem: a single-waypoint mission expands to four
items. -/
theorem upload_expansion_shape_witness :
    ∃ items, upload_mission_waypoints [⟨1, 2, none⟩] = some items ∧
      items.length = 4 := by
  obtain ⟨items, h1, h2, -⟩ := upload_expansion_shape ⟨1, 2, none⟩ []
  exact ⟨items, h1, by simpa using h2⟩

end GCS.Mission
